import Mathlib

/-!
Verification of the log anomaly classification pipeline
(`backend/app/services/log_processor.py`, `log_storage_es.py`,
`email_service.py`) against its natural-language specification.

Log lines are modelled as `List Char`; Python string operations
(`in`, `split`, `strip`, `lower`, `re.search` for the one fixed
component pattern) are embedded as executable functions below.
Scores are modelled as exact rationals (the Python floats here are
small decimal constants combined linearly).  A Python call that can
raise an exception is modelled with `Option` (`none` = raised).
-/

namespace AnomalyDetection

abbrev Chars := List Char

/-- Index of the first occurrence of `sep` in `s`, scanning left to right
(the search Python's `str.find`/`in`/`split` perform). -/
def firstIndexOf (sep : Chars) : Chars → Option Nat
  | [] => if sep.isEmpty then some 0 else none
  | c :: rest =>
    if sep.isPrefixOf (c :: rest) then some 0
    else (firstIndexOf sep rest).map (· + 1)

/-- Python's `pat in s` substring test. -/
def strContains (s : Chars) (pat : String) : Bool :=
  (firstIndexOf pat.toList s).isSome

/-- Split off the text before and after the first occurrence of `sep`. -/
def splitStep (sep s : Chars) : Option (Chars × Chars) :=
  match firstIndexOf sep s with
  | some i => some (s.take i, s.drop (i + sep.length))
  | none => none

/-- Fuelled worker for `pySplit`; the fuel bounds the number of separator
occurrences, which is at most the length of the string. -/
def pySplitFuel (sep : Chars) : Nat → Chars → List Chars
  | 0, s => [s]
  | n + 1, s =>
    match splitStep sep s with
    | some (pre, post) => pre :: pySplitFuel sep n post
    | none => [s]

/-- Python's `s.split(sep)` for a non-empty separator. -/
def pySplit (sep s : Chars) : List Chars :=
  pySplitFuel sep (s.length + 1) s

/-- Python's `str.lower` (ASCII, which is all the rule set uses). -/
def pyLower (s : Chars) : Chars := s.map Char.toLower

def isPyWhitespace (c : Char) : Bool :=
  c == ' ' || c == '\t' || c == '\n' || c == '\r' || c == '\x0b' || c == '\x0c'

/-- Python's `s.strip()`. -/
def pyStrip (s : Chars) : Chars :=
  ((s.dropWhile isPyWhitespace).reverse.dropWhile isPyWhitespace).reverse

/-- `int(''.join(digits))` on an already-filtered digit list. -/
def digitsVal (cs : Chars) : Nat :=
  cs.foldl (fun acc c => acc * 10 + (c.toNat - 48)) 0

/-! ## Data model (`log_processor.py`) -/

/-- Severity levels recognised by `LogProcessor._extract_log_level`. -/
inductive LogLevel
  | FATAL
  | ERROR
  | WARN
  | INFO
  | UNKNOWN
deriving DecidableEq

/-- `LogProcessor.SEVERITY_SCORES` (log_processor.py lines 43-49). -/
def SEVERITY_SCORES : LogLevel → ℚ
  | .FATAL => 1
  | .ERROR => 3 / 4
  | .WARN => 1 / 2
  | .INFO => 1 / 4
  | .UNKNOWN => 1 / 4

/-- `LogProcessor._extract_log_level` (lines 252-262): substring checks
in FATAL, ERROR, WARN, INFO priority order. -/
def extractLogLevel (log : Chars) : LogLevel :=
  if strContains log "FATAL" then .FATAL
  else if strContains log "ERROR" then .ERROR
  else if strContains log "WARN" then .WARN
  else if strContains log "INFO" then .INFO
  else .UNKNOWN

/-- A character matched by the regex class `[\w.]` (ASCII). -/
def wordDotChar (c : Char) : Bool :=
  c.isAlphanum || c == '_' || c == '.'

/-- Match of the regex `org\.apache\.hadoop\.([\w.]+):` anchored at the head
of `s`.  Since `:` is outside `[\w.]`, the greedy run must end exactly at a
`:` for the regex to match at this position. -/
def matchCompAt (s : Chars) : Option Chars :=
  let pre := "org.apache.hadoop.".toList
  if pre.isPrefixOf s then
    let rest := s.drop pre.length
    let run := rest.takeWhile wordDotChar
    if !run.isEmpty && ((rest.drop run.length).headD ' ') == ':' then some run
    else none
  else none

/-- Leftmost match of the component regex, as `re.search` finds it. -/
def findComponent : Chars → Option Chars
  | [] => none
  | c :: rest =>
    match matchCompAt (c :: rest) with
    | some comp => some comp
    | none => findComponent rest

/-- Component extraction shared by `LogProcessor._extract_log_level_and_component`
(line 95) and `ElasticLogStorage._extract_component` (line 402):
`re.search(r'org\.apache\.hadoop\.([\w\.]+):', log)`, defaulting to "unknown". -/
def extractComponent (s : Chars) : Chars :=
  (findComponent s).getD "unknown".toList

/-- The duration parse shared verbatim by `LogProcessor._parse_jvm_pause`
(line 104) and `ElasticLogStorage._determine_anomaly_type` (line 301):
`int(''.join(filter(str.isdigit, t.split("approximately")[1].split("ms")[0])))`.
`none` models the raised `IndexError` (no "approximately") or `ValueError`
(no digit in the segment). -/
def jvmDurationParse (t : Chars) : Option Nat :=
  match (pySplit "approximately".toList t)[1]? with
  | none => none
  | some seg =>
    let ds := ((pySplit "ms".toList seg).headD seg).filter Char.isDigit
    if ds.isEmpty then none else some (digitsVal ds)

/-- The dict returned by `LogProcessor._parse_jvm_pause` (minus the constant
`"type": "JVM_PAUSE"` tag, carried by `Factors.jvm` below). -/
structure JvmInfo where
  duration_ms : Nat
  severity : String
deriving DecidableEq

/-- `LogProcessor._parse_jvm_pause` (lines 100-112).  The bare `except`
around the duration parse makes the whole function total: `none` on any
parse failure. -/
def parseJvmPause (log : Chars) : Option JvmInfo :=
  if strContains log "JvmPauseMonitor" && strContains log "pause" then
    match jvmDurationParse log with
    | some d =>
      some ⟨d, if d > 15000 then "HIGH" else if d > 5000 then "MEDIUM" else "LOW"⟩
    | none => none
  else none

/-- The dict returned by `LogProcessor._parse_stack_trace` (minus the constant
`"type": "EXCEPTION"` tag, carried by `Factors.exc` below). -/
structure StackInfo where
  exception_type : Chars
  stack_trace : Chars
deriving DecidableEq

/-- `LogProcessor._parse_stack_trace` (lines 114-124). -/
def parseStackTrace (log : Chars) : Option StackInfo :=
  if strContains log "\n\t" || strContains log "\nat " then
    let lines := pySplit ['\n'] log
    let first := lines.headD []
    let exTy :=
      if strContains first ": " then (pySplit ": ".toList first).getLastD first
      else "Unknown Exception".toList
    some ⟨exTy, List.intercalate ['\n'] (lines.drop 1)⟩
  else none

/-- The `additional_factors` dict passed to `_calculate_anomaly_score`
(process_logs line 196): the JVM-pause dict, else the stack-trace dict,
else `{}`.  Accessors below mirror `dict.get` with its defaults. -/
inductive Factors
  | empty
  | jvm (info : JvmInfo)
  | exc (info : StackInfo)
deriving DecidableEq

/-- `additional_factors.get("type", "")`. -/
def Factors.ftype : Factors → Chars
  | .empty => []
  | .jvm _ => "JVM_PAUSE".toList
  | .exc _ => "EXCEPTION".toList

/-- `additional_factors.get("duration_ms", 0)`. -/
def Factors.durationMs : Factors → Nat
  | .jvm i => i.duration_ms
  | _ => 0

/-- `additional_factors.get("exception_type", "")`. -/
def Factors.exceptionType : Factors → Chars
  | .exc i => i.exception_type
  | _ => []

/-- First adjustment block of `_calculate_anomaly_score` (lines 132-137):
the JVM-pause duration floors raise the base score before weighting. -/
def jvmAdjust (base : ℚ) (f : Factors) : ℚ :=
  if strContains f.ftype "JVM_PAUSE" then
    if f.durationMs > 15000 then max base (9 / 10)
    else if f.durationMs > 5000 then max base (7 / 10)
    else base
  else base

/-- Second adjustment block of `_calculate_anomaly_score` (lines 139-143):
exception-type floors. -/
def excAdjust (base : ℚ) (f : Factors) : ℚ :=
  if strContains f.ftype "EXCEPTION" then
    if strContains f.exceptionType "NullPointerException" then
      max base (SEVERITY_SCORES .ERROR)
    else if strContains f.exceptionType "IOException" then
      max base (SEVERITY_SCORES .WARN)
    else base
  else base

/-- The `base_score` value `_calculate_anomaly_score` holds right before its
final weighted combination (for empty factors both adjusts are identity,
matching the falsy-dict guard `if additional_factors:`). -/
def effectiveBase (level : LogLevel) (f : Factors) : ℚ :=
  excAdjust (jvmAdjust (SEVERITY_SCORES level) f) f

/-- `LogProcessor._calculate_anomaly_score` (lines 126-146):
`(base_score * 0.7) + (sentiment_score * 0.3)` after the floor adjustments. -/
def calculateAnomalyScore (level : LogLevel) (sentiment : ℚ) (f : Factors) : ℚ :=
  effectiveBase level f * (7 / 10) + sentiment * (3 / 10)

/-! ## Secondary classification and notification routing
(`classify_anomaly`, `email_service.py`) -/

/-- The `{category, confidence}` part of `classify_anomaly`'s result (the
per-label score map is never read by the pipeline's control flow). -/
structure Classification where
  category : String
  confidence : ℚ
deriving DecidableEq

/-- `LogProcessor.classify_anomaly` (lines 148-170): the zero-shot model is
an injected oracle; the surrounding `try/except` yields
`{"category": "UNKNOWN", "confidence": 0.0}` on failure, so the method
itself never raises. -/
def classifyAnomaly (oracle : Chars → Option Classification) (log : Chars) :
    Classification :=
  (oracle log).getD ⟨"UNKNOWN", 0⟩

/-- The six `*_ADMIN_EMAIL` environment values read by
`EmailService.__init__` (email_service.py lines 18-25); `none` models an
unset variable and `some ""` an empty one (both falsy in Python). -/
structure EmailConfig where
  network : Option String
  security : Option String
  availability : Option String
  data : Option String
  resource : Option String
  performance : Option String
deriving DecidableEq

/-- `self.admin_emails.get(anomaly_type)`: the dict has exactly the six
category keys, so any other category (including "UNKNOWN") yields `none`. -/
def adminEmailFor (cfg : EmailConfig) (cat : String) : Option String :=
  if cat = "NETWORK" then cfg.network
  else if cat = "SECURITY" then cfg.security
  else if cat = "AVAILABILITY" then cfg.availability
  else if cat = "DATA" then cfg.data
  else if cat = "RESOURCE" then cfg.resource
  else if cat = "PERFORMANCE" then cfg.performance
  else none

/-- `EmailService.get_admin_emails` (lines 47-49):
`[admin_email] if admin_email else []`. -/
def getAdminEmails (cfg : EmailConfig) (cat : String) : List String :=
  match adminEmailFor cfg cat with
  | some e => if e ≠ "" then [e] else []
  | none => []

/-! ## The orchestrator (`LogProcessor.process_logs`, lines 172-250) -/

/-- The enriched anomaly dict appended to the result list (timestamp field
omitted: it is a wall-clock read, outside the decidable model). -/
structure AnomalyRecord where
  text : Chars
  score : ℚ
  level : LogLevel
  component : Chars
  jvm : Option JvmInfo
  stackTrace : Option StackInfo
  classification : Classification
deriving DecidableEq

/-- One `send_email` call: its category, resolved recipients, score and the
originating line (`send_email` itself swallows transport errors). -/
structure Notification where
  category : String
  recipients : List String
  score : ℚ
  text : Chars
deriving DecidableEq

/-- `additional_factors` selection in `process_logs` line 196:
`{**jvm_info} if jvm_info else {**stack_trace_info} if stack_trace_info else {}`. -/
def factorsOf (log : Chars) : Factors :=
  match parseJvmPause log with
  | some j => .jvm j
  | none =>
    match parseStackTrace log with
    | some st => .exc st
    | none => .empty

/-- The body of the per-line `try` block in `process_logs` (lines 183-244).
`sOr` is the sentiment model (`anomaly_detector` plus the NEGATIVE-label
arithmetic); `sOr log = none` models the model raising, which the outer
`except ...: continue` turns into skipping the whole entry — hence `none`.
All other steps in the block are total.  Returns the appended record and the
notifications dispatched for this line. -/
def processEntry (cfg : EmailConfig) (sOr : Chars → Option ℚ)
    (cOr : Chars → Option Classification) (log : Chars) :
    Option (AnomalyRecord × List Notification) :=
  match sOr log with
  | none => none
  | some sentiment =>
    let level := extractLogLevel log
    let score := calculateAnomalyScore level sentiment (factorsOf log)
    if score > 1 / 2 then
      let cls := classifyAnomaly cOr log
      let record : AnomalyRecord :=
        { text := log, score := score, level := level,
          component := extractComponent log, jvm := parseJvmPause log,
          stackTrace := parseStackTrace log, classification := cls }
      let notes :=
        if score > 7 / 10 then
          let emails := getAdminEmails cfg cls.category
          if emails ≠ [] then [⟨cls.category, emails, score, log⟩] else []
        else []
      some (record, notes)
    else none

/-- The `for log in logs:` loop of `process_logs`, accumulating emitted
records and dispatched notifications in order. -/
def processEntryList (cfg : EmailConfig) (sOr : Chars → Option ℚ)
    (cOr : Chars → Option Classification) (logs : List Chars) :
    List AnomalyRecord × List Notification :=
  logs.foldl
    (fun acc log =>
      match processEntry cfg sOr cOr log with
      | some (r, ns) => (acc.1 ++ [r], acc.2 ++ ns)
      | none => acc)
    ([], [])

/-- `LogProcessor.process_logs` (lines 172-250): empty input short-circuits;
otherwise `log_content.strip().split('\n')` and the per-line loop. -/
def processLogs (cfg : EmailConfig) (sOr : Chars → Option ℚ)
    (cOr : Chars → Option Classification) (blob : Chars) :
    List AnomalyRecord × List Notification :=
  if blob = [] then ([], [])
  else processEntryList cfg sOr cOr (pySplit ['\n'] (pyStrip blob))

/-! ## Storage-side pattern classification
(`ElasticLogStorage._determine_anomaly_type`, log_storage_es.py 291-398) -/

inductive ESCategory
  | PERFORMANCE
  | SECURITY
  | AVAILABILITY
  | DATA
  | NETWORK
  | RESOURCE
  | UNKNOWN
deriving DecidableEq

/-- The dict returned by `_determine_anomaly_type`. -/
structure ESAnomalyInfo where
  source_component : Chars
  etype : ESCategory
  sub_type : String
  duration_ms : Option Nat
deriving DecidableEq

/-- `ElasticLogStorage._determine_anomaly_type` (lines 291-398), a Python
`if/elif` chain.  `none` models the uncaught `IndexError`/`ValueError`
raised by the unguarded duration parse in the `"JvmPauseMonitor"` branch.
When the `"NameNode"` (resp. `"BlockManager"`) guard matches but none of
its inner conditions do, control falls past the whole chain to the final
default return, which the corresponding inner `else` branches reproduce. -/
def determineAnomalyType (t : Chars) : Option ESAnomalyInfo :=
  let comp := extractComponent t
  if strContains t "JvmPauseMonitor" then
    match jvmDurationParse t with
    | none => none
    | some d => some ⟨comp, .PERFORMANCE, "JVM_PAUSE", some d⟩
  else if strContains t "Slow BlockReceiver" || strContains (pyLower t) "slow io" then
    some ⟨comp, .PERFORMANCE, "SLOW_IO", none⟩
  else if strContains t "NameNode" then
    if strContains t "Failed to start active state service" then
      some ⟨comp, .AVAILABILITY, "STARTUP_FAILURE", none⟩
    else if strContains t "Lost leadership" then
      some ⟨comp, .AVAILABILITY, "LEADERSHIP_LOSS", none⟩
    else
      some ⟨comp, .UNKNOWN, "GENERAL", none⟩
  else if strContains t "BlockManager" then
    if strContains t "corrupted" then
      some ⟨comp, .DATA, "CORRUPTION", none⟩
    else if strContains t "Unable to place replica" then
      some ⟨comp, .DATA, "REPLICA_PLACEMENT", none⟩
    else if strContains t "Total load" then
      some ⟨comp, .RESOURCE, "HIGH_LOAD", none⟩
    else
      some ⟨comp, .UNKNOWN, "GENERAL", none⟩
  else if strContains t "Login failed" || strContains t "authentication failed" then
    some ⟨comp, .SECURITY,
      if strContains t "Login failed" then "LOGIN_FAILURE" else "AUTH_FAILURE", none⟩
  else if strContains t "Token" && strContains t "ERROR" then
    some ⟨comp, .SECURITY, "TOKEN_ERROR", none⟩
  else if strContains t "Connection timed out" then
    some ⟨comp, .NETWORK, "TIMEOUT", none⟩
  else if strContains t "Network error" || strContains t "Connection refused" then
    some ⟨comp, .NETWORK, "CONNECTION_ERROR", none⟩
  else if strContains (pyLower t) "disk space" || strContains t "capacity exceeded" then
    some ⟨comp, .RESOURCE, "DISK_SPACE", none⟩
  else if strContains t "Memory usage" || strContains t "OutOfMemoryError" then
    some ⟨comp, .RESOURCE, "MEMORY", none⟩
  else
    some ⟨comp, .UNKNOWN, "GENERAL", none⟩

/-- Position of a level in the severity ordering
INFO(=UNKNOWN) ≤ WARN ≤ ERROR ≤ FATAL. -/
def levelRank : LogLevel → Nat
  | .UNKNOWN => 0
  | .INFO => 0
  | .WARN => 1
  | .ERROR => 2
  | .FATAL => 3

/-- The text `_determine_anomaly_type`'s duration parse takes the digits
from: the segment between the first `"approximately"` (up to a second
occurrence, if any) and the first `"ms"` after it. -/
def esJvmSegment (t : Chars) : Chars :=
  match (pySplit "approximately".toList t)[1]? with
  | none => []
  | some seg => (pySplit "ms".toList seg).headD seg

/-! ## Concrete inputs and configurations used by the theorems -/

/-- All `*_ADMIN_EMAIL` variables unset. -/
def cfgNone : EmailConfig := ⟨none, none, none, none, none, none⟩

/-- Only `PERFORMANCE_ADMIN_EMAIL` configured. -/
def cfgPerf : EmailConfig := ⟨none, none, none, none, none, some "perf@example.com"⟩

/-- A JVM-pause line with a parsable 20000ms duration and no severity token. -/
def jvmLine : Chars :=
  "JvmPauseMonitor: Detected pause in GC of approximately 20000ms".toList

/-- An ERROR line matching no pattern rule, scoring 0.525 at sentiment 0. -/
def errLine : Chars :=
  "ERROR org.apache.hadoop.hdfs.DataXceiver: replication task".toList

/-- A line containing "NameNode" and "Connection timed out" but neither
NameNode sub-condition. -/
def nnLine : Chars := "NameNode: Connection timed out".toList

/-- A two-physical-line entry: an exception message plus its tab-indented
stack-trace continuation. -/
def traceBlob : Chars :=
  "ERROR DataNode: java.io.IOException: failed\n\tat Foo.bar(Foo.java:10)".toList

/-- A FATAL line, used as the entry whose sentiment scoring fails. -/
def fatalLine : Chars := "FATAL DataNode: disk failure".toList

/-- A second, unremarkable ERROR line for the same batch. -/
def errLineB : Chars := "ERROR DataXceiver: copy failed".toList

/-- Batch holding `fatalLine` and `errLineB`. -/
def c5Blob : Chars := fatalLine ++ '\n' :: errLineB

/-- Sentiment oracle that raises on `fatalLine` and yields 0.5 elsewhere. -/
def c5Oracle (l : Chars) : Option ℚ := if l = fatalLine then none else some (1 / 2)

/-- A FATAL line with no pattern match, scoring 1.0 at sentiment 1. -/
def c6Line : Chars := "FATAL service down".toList

/-- A JvmPauseMonitor line without the substring "approximately". -/
def c10Line : Chars := "JvmPauseMonitor detected a long pause".toList

/-! ## Helper lemmas -/

theorem jvmAdjust_empty (b : ℚ) : jvmAdjust b .empty = b := by
  have h : ¬ (strContains (Factors.ftype .empty) "JVM_PAUSE" = true) := fun hc =>
    absurd (show strContains [] "JVM_PAUSE" = true from hc) (by decide)
  unfold jvmAdjust
  rw [if_neg h]

theorem jvmAdjust_exc (b : ℚ) (st : StackInfo) : jvmAdjust b (.exc st) = b := by
  have h : ¬ (strContains (Factors.ftype (.exc st)) "JVM_PAUSE" = true) := fun hc =>
    absurd (show strContains "EXCEPTION".toList "JVM_PAUSE" = true from hc) (by decide)
  unfold jvmAdjust
  rw [if_neg h]

theorem jvmAdjust_jvm (b : ℚ) (i : JvmInfo) :
    jvmAdjust b (.jvm i) =
      if i.duration_ms > 15000 then max b (9 / 10)
      else if i.duration_ms > 5000 then max b (7 / 10)
      else b := by
  have h : strContains (Factors.ftype (.jvm i)) "JVM_PAUSE" = true :=
    show strContains "JVM_PAUSE".toList "JVM_PAUSE" = true from by decide
  unfold jvmAdjust
  rw [if_pos h]
  rfl

theorem excAdjust_empty (b : ℚ) : excAdjust b .empty = b := by
  have h : ¬ (strContains (Factors.ftype .empty) "EXCEPTION" = true) := fun hc =>
    absurd (show strContains [] "EXCEPTION" = true from hc) (by decide)
  unfold excAdjust
  rw [if_neg h]

theorem excAdjust_jvm (b : ℚ) (i : JvmInfo) : excAdjust b (.jvm i) = b := by
  have h : ¬ (strContains (Factors.ftype (.jvm i)) "EXCEPTION" = true) := fun hc =>
    absurd (show strContains "JVM_PAUSE".toList "EXCEPTION" = true from hc) (by decide)
  unfold excAdjust
  rw [if_neg h]

theorem excAdjust_exc (b : ℚ) (st : StackInfo) :
    excAdjust b (.exc st) =
      if strContains st.exception_type "NullPointerException" then max b (3 / 4)
      else if strContains st.exception_type "IOException" then max b (1 / 2)
      else b := by
  have h : strContains (Factors.ftype (.exc st)) "EXCEPTION" = true :=
    show strContains "EXCEPTION".toList "EXCEPTION" = true from by decide
  unfold excAdjust
  rw [if_pos h]
  norm_num [SEVERITY_SCORES, Factors.exceptionType]

theorem le_jvmAdjust (b : ℚ) (f : Factors) : b ≤ jvmAdjust b f := by
  unfold jvmAdjust
  split_ifs <;> simp [le_max_left]

theorem le_excAdjust (b : ℚ) (f : Factors) : b ≤ excAdjust b f := by
  unfold excAdjust
  split_ifs <;> simp [le_max_left]

theorem jvmAdjust_le_one (b : ℚ) (f : Factors) (hb : b ≤ 1) : jvmAdjust b f ≤ 1 := by
  unfold jvmAdjust
  split_ifs <;> first | exact hb | exact max_le hb (by norm_num)

theorem excAdjust_le_one (b : ℚ) (f : Factors) (hb : b ≤ 1) : excAdjust b f ≤ 1 := by
  unfold excAdjust
  split_ifs <;>
    first
      | exact hb
      | exact max_le hb (by norm_num [SEVERITY_SCORES])

theorem jvmAdjust_mono (b₁ b₂ : ℚ) (f : Factors) (h : b₁ ≤ b₂) :
    jvmAdjust b₁ f ≤ jvmAdjust b₂ f := by
  unfold jvmAdjust
  split_ifs <;> first | exact h | exact max_le_max h le_rfl

theorem excAdjust_mono (b₁ b₂ : ℚ) (f : Factors) (h : b₁ ≤ b₂) :
    excAdjust b₁ f ≤ excAdjust b₂ f := by
  unfold excAdjust
  split_ifs <;> first | exact h | exact max_le_max h le_rfl

theorem severity_nonneg (l : LogLevel) : 0 ≤ SEVERITY_SCORES l := by
  cases l <;> norm_num [SEVERITY_SCORES]

theorem severity_le_one (l : LogLevel) : SEVERITY_SCORES l ≤ 1 := by
  cases l <;> norm_num [SEVERITY_SCORES]

theorem effectiveBase_ge_severity (l : LogLevel) (f : Factors) :
    SEVERITY_SCORES l ≤ effectiveBase l f :=
  le_trans (le_jvmAdjust _ f) (le_excAdjust _ f)

theorem effectiveBase_le_one (l : LogLevel) (f : Factors) : effectiveBase l f ≤ 1 :=
  excAdjust_le_one _ f (jvmAdjust_le_one _ f (severity_le_one l))

theorem processEntry_of_sentiment_none (cfg : EmailConfig) (sOr : Chars → Option ℚ)
    (cOr : Chars → Option Classification) (log : Chars) (hs : sOr log = none) :
    processEntry cfg sOr cOr log = none := by
  unfold processEntry
  rw [hs]

theorem processEntry_of_sentiment_some (cfg : EmailConfig) (sOr : Chars → Option ℚ)
    (cOr : Chars → Option Classification) (log : Chars) (s : ℚ) (hs : sOr log = some s) :
    processEntry cfg sOr cOr log =
      if calculateAnomalyScore (extractLogLevel log) s (factorsOf log) > 1 / 2 then
        some
          ({ text := log,
             score := calculateAnomalyScore (extractLogLevel log) s (factorsOf log),
             level := extractLogLevel log, component := extractComponent log,
             jvm := parseJvmPause log, stackTrace := parseStackTrace log,
             classification := classifyAnomaly cOr log },
           if calculateAnomalyScore (extractLogLevel log) s (factorsOf log) > 7 / 10 then
             if getAdminEmails cfg (classifyAnomaly cOr log).category ≠ [] then
               [⟨(classifyAnomaly cOr log).category,
                 getAdminEmails cfg (classifyAnomaly cOr log).category,
                 calculateAnomalyScore (extractLogLevel log) s (factorsOf log), log⟩]
             else []
           else [])
      else none := by
  unfold processEntry
  rw [hs]


theorem adminEmailFor_unknown (cfg : EmailConfig) : adminEmailFor cfg "UNKNOWN" = none := by
  unfold adminEmailFor
  rw [if_neg (by decide), if_neg (by decide), if_neg (by decide), if_neg (by decide),
    if_neg (by decide), if_neg (by decide)]

theorem getAdminEmails_unknown (cfg : EmailConfig) : getAdminEmails cfg "UNKNOWN" = [] := by
  unfold getAdminEmails
  rw [adminEmailFor_unknown]

theorem processEntryList_acc (cfg : EmailConfig) (sOr : Chars → Option ℚ)
    (cOr : Chars → Option Classification) (logs : List Chars)
    (acc : List AnomalyRecord × List Notification) :
    List.foldl
        (fun acc log =>
          match processEntry cfg sOr cOr log with
          | some (r, ns) => (acc.1 ++ [r], acc.2 ++ ns)
          | none => acc)
        acc logs
      = (acc.1 ++ (processEntryList cfg sOr cOr logs).1,
         acc.2 ++ (processEntryList cfg sOr cOr logs).2) := by
  induction logs generalizing acc with
  | nil => simp [processEntryList]
  | cons log logs ih =>
    rw [List.foldl_cons]
    rw [ih]
    have hrhs :
        processEntryList cfg sOr cOr (log :: logs)
          = ((match processEntry cfg sOr cOr log with
              | some (r, ns) => (([] : List AnomalyRecord) ++ [r], ([] : List Notification) ++ ns)
              | none => (([] : List AnomalyRecord), ([] : List Notification))).1
                ++ (processEntryList cfg sOr cOr logs).1,
             (match processEntry cfg sOr cOr log with
              | some (r, ns) => (([] : List AnomalyRecord) ++ [r], ([] : List Notification) ++ ns)
              | none => (([] : List AnomalyRecord), ([] : List Notification))).2
                ++ (processEntryList cfg sOr cOr logs).2) := by
      show List.foldl _ ([], []) (log :: logs) = _
      rw [List.foldl_cons]
      rw [ih]
    rw [hrhs]
    cases processEntry cfg sOr cOr log with
    | none => simp
    | some p => cases p with | mk r ns => simp

theorem processEntryList_cons_none (cfg : EmailConfig) (sOr : Chars → Option ℚ)
    (cOr : Chars → Option Classification) (log : Chars) (logs : List Chars)
    (h : processEntry cfg sOr cOr log = none) :
    processEntryList cfg sOr cOr (log :: logs) = processEntryList cfg sOr cOr logs := by
  show List.foldl _ ([], []) (log :: logs) = _
  rw [List.foldl_cons]
  have hstep :
      (match processEntry cfg sOr cOr log with
        | some (r, ns) => ((([], []) : List AnomalyRecord × List Notification).1 ++ [r],
                           (([], []) : List AnomalyRecord × List Notification).2 ++ ns)
        | none => (([], []) : List AnomalyRecord × List Notification))
        = (([], []) : List AnomalyRecord × List Notification) := by
    rw [h]
  rw [hstep]
  rfl

theorem processEntryList_cons_some (cfg : EmailConfig) (sOr : Chars → Option ℚ)
    (cOr : Chars → Option Classification) (log : Chars) (logs : List Chars)
    (r : AnomalyRecord) (ns : List Notification)
    (h : processEntry cfg sOr cOr log = some (r, ns)) :
    processEntryList cfg sOr cOr (log :: logs)
      = (r :: (processEntryList cfg sOr cOr logs).1,
         ns ++ (processEntryList cfg sOr cOr logs).2) := by
  show List.foldl _ ([], []) (log :: logs) = _
  rw [List.foldl_cons]
  have hstep :
      (match processEntry cfg sOr cOr log with
        | some (r, ns) => ((([], []) : List AnomalyRecord × List Notification).1 ++ [r],
                           (([], []) : List AnomalyRecord × List Notification).2 ++ ns)
        | none => (([], []) : List AnomalyRecord × List Notification))
        = ([r], ns) := by
    rw [h]
    simp
  rw [hstep]
  rw [processEntryList_acc]
  simp

theorem processEntryList_append (cfg : EmailConfig) (sOr : Chars → Option ℚ)
    (cOr : Chars → Option Classification) (l₁ l₂ : List Chars) :
    processEntryList cfg sOr cOr (l₁ ++ l₂)
      = ((processEntryList cfg sOr cOr l₁).1 ++ (processEntryList cfg sOr cOr l₂).1,
         (processEntryList cfg sOr cOr l₁).2 ++ (processEntryList cfg sOr cOr l₂).2) := by
  show List.foldl _ ([], []) (l₁ ++ l₂) = _
  rw [List.foldl_append]
  exact processEntryList_acc cfg sOr cOr l₂ (processEntryList cfg sOr cOr l₁)

theorem pySplit_eq_single_of_not_contains (pat : String) (t : Chars)
    (h : strContains t pat = false) : pySplit pat.toList t = [t] := by
  have hnone : firstIndexOf pat.toList t = none := by
    cases hfi : firstIndexOf pat.toList t with
    | none => rfl
    | some i =>
      exfalso
      have htrue : strContains t pat = true := by
        unfold strContains
        rw [hfi]
        rfl
      rw [h] at htrue
      exact Bool.noConfusion htrue
  have hstep : splitStep pat.toList t = none := by
    unfold splitStep
    rw [hnone]
  unfold pySplit
  show (match splitStep pat.toList t with
        | some (pre, post) => pre :: pySplitFuel pat.toList t.length post
        | none => [t]) = [t]
  rw [hstep]


/-! ## Claims -/

/-- Claim C1, counterexample: on a line containing "JvmPauseMonitor" and
"approximately 20000ms" (and "pause"), the pipeline emits a record whose
final score at sentiment 0 is 0.63, not ≥ 0.9: the 0.9 floor is applied to
the base score before the 0.7/0.3 weighting, so
`max(base, 0.9)*0.7 + 0*0.3 = 0.63 < 0.9`, refuting the claimed
`final_score = max(base*0.7 + sentiment*0.3, 0.9)`. -/
theorem C1_counterexample :
    processEntry cfgNone (fun _ => some 0) (fun _ => none) jvmLine
      = some ({ text := jvmLine, score := 63 / 100, level := .UNKNOWN,
                component := "unknown".toList, jvm := some ⟨20000, "HIGH"⟩,
                stackTrace := none, classification := ⟨"UNKNOWN", 0⟩ }, []) ∧
    ¬ ((63 : ℚ) / 100 ≥ 9 / 10) := by
  constructor
  · have hl : extractLogLevel jvmLine = .UNKNOWN := by decide
    have hf : factorsOf jvmLine = .jvm ⟨20000, "HIGH"⟩ := by decide
    have hscore :
        calculateAnomalyScore (extractLogLevel jvmLine) 0 (factorsOf jvmLine) = 63 / 100 := by
      rw [hl, hf]
      unfold calculateAnomalyScore effectiveBase
      rw [excAdjust_jvm, jvmAdjust_jvm, if_pos (by decide)]
      rw [show SEVERITY_SCORES LogLevel.UNKNOWN = 1 / 4 from rfl]
      rw [max_eq_right (by norm_num : (1 : ℚ) / 4 ≤ 9 / 10)]
      norm_num
    rw [processEntry_of_sentiment_some cfgNone _ _ jvmLine 0 rfl, hscore]
    rw [if_pos (by norm_num : (63 : ℚ) / 100 > 1 / 2)]
    rw [if_neg (by norm_num : ¬ ((63 : ℚ) / 100 > 7 / 10))]
    have hc : extractComponent jvmLine = "unknown".toList := by decide
    have hj : parseJvmPause jvmLine = some ⟨20000, "HIGH"⟩ := by decide
    have hst : parseStackTrace jvmLine = none := by decide
    rw [hc, hj, hst, hl]
    rfl
  · norm_num

/-- Claim C1, amended: for every log line containing "JvmPauseMonitor" and
"pause" whose duration parse yields 20000 (e.g. a parsable
"approximately 20000ms"), the pipeline extracts `duration_ms = 20000`, the
storage classifier yields PERFORMANCE/JVM_PAUSE, and for every sentiment in
[0,1] the final score equals `max(base(level), 0.9) * 0.7 + sentiment * 0.3`
— the 0.9 floor raises the base before the weighted combination — hence lies
in [0.63, 1.0] and is not ≥ 0.9 for all sentiment. -/
theorem C1_amended (t : Chars) (s : ℚ) (h0 : 0 ≤ s) (h1 : s ≤ 1)
    (hjpm : strContains t "JvmPauseMonitor" = true)
    (hp : strContains t "pause" = true)
    (hdur : jvmDurationParse t = some 20000) :
    parseJvmPause t = some ⟨20000, "HIGH"⟩ ∧
    determineAnomalyType t
      = some ⟨extractComponent t, .PERFORMANCE, "JVM_PAUSE", some 20000⟩ ∧
    calculateAnomalyScore (extractLogLevel t) s (factorsOf t)
      = max (SEVERITY_SCORES (extractLogLevel t)) (9 / 10) * (7 / 10)
          + s * (3 / 10) ∧
    63 / 100 ≤ calculateAnomalyScore (extractLogLevel t) s (factorsOf t) ∧
    calculateAnomalyScore (extractLogLevel t) s (factorsOf t) ≤ 1 := by
  have hpj : parseJvmPause t = some ⟨20000, "HIGH"⟩ := by
    unfold parseJvmPause
    rw [if_pos (show
      (strContains t "JvmPauseMonitor" && strContains t "pause") = true by
        rw [hjpm, hp]
        rfl)]
    rw [hdur]
    rfl
  have hfac : factorsOf t = .jvm ⟨20000, "HIGH"⟩ := by
    unfold factorsOf
    rw [hpj]
  have heq :
      calculateAnomalyScore (extractLogLevel t) s (factorsOf t)
        = max (SEVERITY_SCORES (extractLogLevel t)) (9 / 10) * (7 / 10)
            + s * (3 / 10) := by
    rw [hfac]
    unfold calculateAnomalyScore effectiveBase
    rw [excAdjust_jvm, jvmAdjust_jvm, if_pos (by decide)]
  have hmax_lo : (9 : ℚ) / 10 ≤ max (SEVERITY_SCORES (extractLogLevel t)) (9 / 10) :=
    le_max_right _ _
  have hmax_hi : max (SEVERITY_SCORES (extractLogLevel t)) (9 / 10) ≤ 1 :=
    max_le (severity_le_one _) (by norm_num)
  refine ⟨hpj, ?_, heq, ?_, ?_⟩
  · simp [determineAnomalyType, hjpm, hdur]
  · rw [heq]
    nlinarith
  · rw [heq]
    nlinarith

/-- Claim C1, witness for the amended theorem on the concrete line at
sentiment 0. -/
theorem C1_amended_witness :
    63 / 100 ≤ calculateAnomalyScore (extractLogLevel jvmLine) 0 (factorsOf jvmLine) :=
  (C1_amended jvmLine 0 (by norm_num) (by norm_num) (by decide) (by decide)
    (by decide)).2.2.2.1

/-- Claim C2, counterexample: an ERROR line scoring 0.525 (strictly between
the 0.5 emission threshold and the 0.7 notify threshold) is emitted carrying
the secondary classifier's output DATA/0.9 — `classify_anomaly` runs for
every emitted record, not only above 0.7 — while no notification is sent. -/
theorem C2_counterexample :
    processEntry cfgNone (fun _ => some 0) (fun _ => some ⟨"DATA", 9 / 10⟩) errLine
      = some ({ text := errLine, score := 21 / 40, level := .ERROR,
                component := "hdfs.DataXceiver".toList, jvm := none, stackTrace := none,
                classification := ⟨"DATA", 9 / 10⟩ }, []) ∧
    (1 / 2 : ℚ) < 21 / 40 ∧ (21 / 40 : ℚ) ≤ 7 / 10 := by
  refine ⟨?_, by norm_num, by norm_num⟩
  have hl : extractLogLevel errLine = .ERROR := by decide
  have hf : factorsOf errLine = .empty := by decide
  have hscore :
      calculateAnomalyScore (extractLogLevel errLine) 0 (factorsOf errLine) = 21 / 40 := by
    rw [hl, hf]
    unfold calculateAnomalyScore effectiveBase
    rw [jvmAdjust_empty, excAdjust_empty]
    norm_num [SEVERITY_SCORES]
  rw [processEntry_of_sentiment_some cfgNone _ _ errLine 0 rfl, hscore]
  rw [if_pos (by norm_num : (21 : ℚ) / 40 > 1 / 2)]
  rw [if_neg (by norm_num : ¬ ((21 : ℚ) / 40 > 7 / 10))]
  have hc : extractComponent errLine = "hdfs.DataXceiver".toList := by decide
  have hj : parseJvmPause errLine = none := by decide
  have hst : parseStackTrace errLine = none := by decide
  rw [hc, hj, hst, hl]
  rfl

/-- Claim C2, amended: when sentiment scoring succeeds, a record is emitted
iff `final_score > 0.5`; every emitted record carries the secondary
classification (the classifier's output); and no notification is attempted
when `final_score ≤ 0.7`. -/
theorem C2_amended (cfg : EmailConfig) (sOr : Chars → Option ℚ)
    (cOr : Chars → Option Classification) (log : Chars) (s : ℚ)
    (hs : sOr log = some s) :
    ((processEntry cfg sOr cOr log).isSome
        ↔ calculateAnomalyScore (extractLogLevel log) s (factorsOf log) > 1 / 2) ∧
    (∀ r ns, processEntry cfg sOr cOr log = some (r, ns) →
      r.classification = classifyAnomaly cOr log ∧
      (calculateAnomalyScore (extractLogLevel log) s (factorsOf log) ≤ 7 / 10 → ns = [])) := by
  rw [processEntry_of_sentiment_some cfg sOr cOr log s hs]
  by_cases hgt : calculateAnomalyScore (extractLogLevel log) s (factorsOf log) > 1 / 2
  · rw [if_pos hgt]
    refine ⟨by simp only [Option.isSome_some]; exact iff_of_true trivial hgt, ?_⟩
    intro r ns h
    simp only [Option.some.injEq, Prod.mk.injEq] at h
    obtain ⟨hr, hn⟩ := h
    subst hr
    subst hn
    refine ⟨rfl, ?_⟩
    intro hle
    rw [if_neg (not_lt.mpr hle)]
  · rw [if_neg hgt]
    refine ⟨by simp only [Option.isSome_none]; exact iff_of_false Bool.false_ne_true hgt, ?_⟩
    intro r ns h
    exact absurd h (by simp)

/-- Claim C2, witness for the amended theorem on the concrete ERROR line. -/
theorem C2_amended_witness :
    (processEntry cfgNone (fun _ => some 0) (fun _ => some ⟨"DATA", 9 / 10⟩) errLine).isSome
      ↔ calculateAnomalyScore (extractLogLevel errLine) 0 (factorsOf errLine) > 1 / 2 :=
  (C2_amended cfgNone (fun _ => some 0) (fun _ => some ⟨"DATA", 9 / 10⟩) errLine 0 rfl).1

/-- Claim C3, counterexample: a line containing both "NameNode" and
"Connection timed out" (but neither NameNode sub-condition) is classified
UNKNOWN/GENERAL, not NETWORK/TIMEOUT: the matching "NameNode" guard stops
evaluation even though no inner rule produced an outcome. -/
theorem C3_counterexample :
    strContains nnLine "NameNode" = true ∧
    strContains nnLine "Connection timed out" = true ∧
    determineAnomalyType nnLine = some ⟨"unknown".toList, .UNKNOWN, "GENERAL", none⟩ := by
  refine ⟨by decide, by decide, by decide⟩

/-- Claim C3, amended: classification is by first matching rule, but the
"NameNode" (and "BlockManager") rules match on the guard substring alone:
if a line reaches the "NameNode" guard and neither sub-condition holds, the
result is UNKNOWN/GENERAL and no later rule (e.g. NETWORK/TIMEOUT) is
evaluated. -/
theorem C3_amended (t : Chars)
    (h1 : strContains t "NameNode" = true)
    (h2 : strContains t "JvmPauseMonitor" = false)
    (h3 : strContains t "Slow BlockReceiver" = false)
    (h4 : strContains (pyLower t) "slow io" = false)
    (h5 : strContains t "Failed to start active state service" = false)
    (h6 : strContains t "Lost leadership" = false) :
    determineAnomalyType t = some ⟨extractComponent t, .UNKNOWN, "GENERAL", none⟩ := by
  simp [determineAnomalyType, h1, h2, h3, h4, h5, h6]

/-- Claim C3, witness for the amended theorem on the concrete line. -/
theorem C3_amended_witness :
    determineAnomalyType nnLine
      = some ⟨extractComponent nnLine, .UNKNOWN, "GENERAL", none⟩ :=
  C3_amended nnLine (by decide) (by decide) (by decide) (by decide) (by decide) (by decide)

/-- Claim C4: `process_logs` splits its input on every newline, so the
tab-indented stack-trace continuation of `traceBlob` becomes its own
logical entry, and `_parse_stack_trace` — which requires an embedded
newline and would fire on the unsplit blob — returns `None` on both
resulting entries.  This contradicts the specified stack-trace-preserving
splitting and makes `_parse_stack_trace` unreachable from `process_logs`. -/
theorem C4_split_breaks_stack_traces :
    pySplit ['\n'] (pyStrip traceBlob)
      = ["ERROR DataNode: java.io.IOException: failed".toList,
         "\tat Foo.bar(Foo.java:10)".toList] ∧
    parseStackTrace "ERROR DataNode: java.io.IOException: failed".toList = none ∧
    parseStackTrace "\tat Foo.bar(Foo.java:10)".toList = none ∧
    parseStackTrace traceBlob
      = some ⟨"failed".toList, "\tat Foo.bar(Foo.java:10)".toList⟩ := by
  refine ⟨by decide, by decide, by decide, by decide⟩


/-- Claim C5, counterexample: in the batch `c5Blob`, sentiment scoring raises
on the FATAL line; the code's per-entry `except: continue` drops that entry
entirely, returning only the other line's record — whereas the claim's
sentiment-contribution-0 fallback would have given the FATAL line
`1.0*0.7 = 0.7 > 0.5` and hence a second record. -/
theorem C5_counterexample :
    processLogs cfgNone c5Oracle (fun _ => none) c5Blob
      = ([{ text := errLineB, score := 27 / 40, level := .ERROR,
            component := "unknown".toList, jvm := none, stackTrace := none,
            classification := ⟨"UNKNOWN", 0⟩ }], []) ∧
    calculateAnomalyScore LogLevel.FATAL 0 Factors.empty = 7 / 10 ∧
    (1 / 2 : ℚ) < 7 / 10 := by
  refine ⟨?_, ?_, by norm_num⟩
  · have hsplit : pySplit ['\n'] (pyStrip c5Blob) = [fatalLine, errLineB] := by decide
    have hfail : processEntry cfgNone c5Oracle (fun _ => none) fatalLine = none :=
      processEntry_of_sentiment_none cfgNone c5Oracle _ fatalLine rfl
    have hok : processEntry cfgNone c5Oracle (fun _ => none) errLineB
        = some ({ text := errLineB, score := 27 / 40, level := .ERROR,
                  component := "unknown".toList, jvm := none, stackTrace := none,
                  classification := ⟨"UNKNOWN", 0⟩ }, []) := by
      have hl : extractLogLevel errLineB = .ERROR := by decide
      have hf : factorsOf errLineB = .empty := by decide
      have hscore :
          calculateAnomalyScore (extractLogLevel errLineB) (1 / 2) (factorsOf errLineB)
            = 27 / 40 := by
        rw [hl, hf]
        unfold calculateAnomalyScore effectiveBase
        rw [jvmAdjust_empty, excAdjust_empty]
        norm_num [SEVERITY_SCORES]
      rw [processEntry_of_sentiment_some cfgNone c5Oracle _ errLineB (1 / 2) rfl, hscore]
      rw [if_pos (by norm_num : (27 : ℚ) / 40 > 1 / 2)]
      rw [if_neg (by norm_num : ¬ ((27 : ℚ) / 40 > 7 / 10))]
      have hc : extractComponent errLineB = "unknown".toList := by decide
      have hj : parseJvmPause errLineB = none := by decide
      have hst : parseStackTrace errLineB = none := by decide
      rw [hc, hj, hst, hl]
      rfl
    unfold processLogs
    rw [if_neg (by decide : ¬ (c5Blob = []))]
    rw [hsplit]
    rw [processEntryList_cons_none _ _ _ _ _ hfail]
    rw [processEntryList_cons_some _ _ _ _ _ _ _ hok]
    rfl
  · unfold calculateAnomalyScore effectiveBase
    rw [jvmAdjust_empty, excAdjust_empty]
    norm_num [SEVERITY_SCORES]

/-- Claim C5, amended: if the sentiment scorer raises on one entry of a
batch, that entry is skipped entirely (it produces no record, with no
sentiment-0 fallback); the batch result is exactly that of the batch with
the failing entry removed — every other entry is processed normally and the
batch is never aborted. -/
theorem C5_amended (cfg : EmailConfig) (sOr : Chars → Option ℚ)
    (cOr : Chars → Option Classification) (log : Chars)
    (hfail : sOr log = none) (pre post : List Chars) :
    processEntryList cfg sOr cOr (pre ++ log :: post)
      = processEntryList cfg sOr cOr (pre ++ post) := by
  rw [processEntryList_append, processEntryList_append]
  rw [processEntryList_cons_none cfg sOr cOr log post
    (processEntry_of_sentiment_none cfg sOr cOr log hfail)]

/-- Claim C5, witness for the amended theorem on the concrete two-line batch. -/
theorem C5_amended_witness :
    processEntryList cfgNone c5Oracle (fun _ => none) ([] ++ fatalLine :: [errLineB])
      = processEntryList cfgNone c5Oracle (fun _ => none) ([] ++ [errLineB]) :=
  C5_amended cfgNone c5Oracle (fun _ => none) fatalLine rfl [] [errLineB]

/-- Claim C6: for an emitted record, a notification is dispatched iff
`final_score > 0.7` and the secondary category resolves to a non-empty
recipient list; when the secondary classifier fails, the classification is
UNKNOWN with confidence 0, which resolves to no recipients, so the
notification is skipped while the record is still returned. -/
theorem C6_notification_routing (cfg : EmailConfig) (sOr : Chars → Option ℚ)
    (cOr : Chars → Option Classification) (log : Chars) (s : ℚ)
    (r : AnomalyRecord) (ns : List Notification)
    (hs : sOr log = some s)
    (hrun : processEntry cfg sOr cOr log = some (r, ns)) :
    (ns ≠ [] ↔ (r.score > 7 / 10 ∧ getAdminEmails cfg r.classification.category ≠ [])) ∧
    (cOr log = none → r.classification = ⟨"UNKNOWN", 0⟩ ∧ ns = []) := by
  rw [processEntry_of_sentiment_some cfg sOr cOr log s hs] at hrun
  by_cases hgt : calculateAnomalyScore (extractLogLevel log) s (factorsOf log) > 1 / 2
  · rw [if_pos hgt] at hrun
    simp only [Option.some.injEq, Prod.mk.injEq] at hrun
    obtain ⟨hr, hn⟩ := hrun
    subst hr
    subst hn
    constructor
    · by_cases h7 : calculateAnomalyScore (extractLogLevel log) s (factorsOf log) > 7 / 10
      · rw [if_pos h7]
        by_cases he : getAdminEmails cfg (classifyAnomaly cOr log).category ≠ []
        · rw [if_pos he]
          exact iff_of_true (by simp) ⟨h7, he⟩
        · rw [if_neg he]
          exact iff_of_false (by simp) (fun hc => he hc.2)
      · rw [if_neg h7]
        exact iff_of_false (by simp) (fun hc => h7 hc.1)
    · intro hc
      have hcls : classifyAnomaly cOr log = ⟨"UNKNOWN", 0⟩ := by
        unfold classifyAnomaly
        rw [hc]
        rfl
      have he : getAdminEmails cfg (classifyAnomaly cOr log).category = [] := by
        rw [hcls]
        exact getAdminEmails_unknown cfg
      refine ⟨hcls, ?_⟩
      by_cases h7 : calculateAnomalyScore (extractLogLevel log) s (factorsOf log) > 7 / 10
      · rw [if_pos h7, if_neg (fun hne => hne he)]
      · rw [if_neg h7]
  · rw [if_neg hgt] at hrun
    exact absurd hrun (by simp)

/-- Concrete run feeding the C6 witness: a FATAL line at sentiment 1 with a
successful PERFORMANCE classification and a configured recipient. -/
theorem c6Run :
    processEntry cfgPerf (fun _ => some 1) (fun _ => some ⟨"PERFORMANCE", 1⟩) c6Line
      = some ({ text := c6Line, score := 1, level := .FATAL,
                component := "unknown".toList, jvm := none, stackTrace := none,
                classification := ⟨"PERFORMANCE", 1⟩ },
              [⟨"PERFORMANCE", ["perf@example.com"], 1, c6Line⟩]) := by
  have hl : extractLogLevel c6Line = .FATAL := by decide
  have hf : factorsOf c6Line = .empty := by decide
  have hscore : calculateAnomalyScore (extractLogLevel c6Line) 1 (factorsOf c6Line) = 1 := by
    rw [hl, hf]
    unfold calculateAnomalyScore effectiveBase
    rw [jvmAdjust_empty, excAdjust_empty]
    norm_num [SEVERITY_SCORES]
  rw [processEntry_of_sentiment_some cfgPerf _ _ c6Line 1 rfl, hscore]
  rw [if_pos (by norm_num : (1 : ℚ) > 1 / 2)]
  rw [if_pos (by norm_num : (1 : ℚ) > 7 / 10)]
  have hcls :
      classifyAnomaly (fun _ => some ⟨"PERFORMANCE", (1 : ℚ)⟩) c6Line
        = ⟨"PERFORMANCE", 1⟩ := rfl
  rw [hcls]
  have he : getAdminEmails cfgPerf (Classification.mk "PERFORMANCE" 1).category
      = ["perf@example.com"] := rfl
  rw [he]
  rw [if_pos (by simp : (["perf@example.com"] : List String) ≠ [])]
  have hc : extractComponent c6Line = "unknown".toList := by decide
  have hj : parseJvmPause c6Line = none := by decide
  have hst : parseStackTrace c6Line = none := by decide
  rw [hc, hj, hst, hl]

/-- Claim C6, witness: applying the routing theorem to the concrete run. -/
theorem C6_witness :
    (([⟨"PERFORMANCE", ["perf@example.com"], 1, c6Line⟩] : List Notification) ≠ []) ↔
      (((1 : ℚ) > 7 / 10) ∧ getAdminEmails cfgPerf "PERFORMANCE" ≠ []) :=
  (C6_notification_routing cfgPerf (fun _ => some 1) (fun _ => some ⟨"PERFORMANCE", 1⟩)
      c6Line 1
      { text := c6Line, score := 1, level := .FATAL, component := "unknown".toList,
        jvm := none, stackTrace := none, classification := ⟨"PERFORMANCE", 1⟩ }
      [⟨"PERFORMANCE", ["perf@example.com"], 1, c6Line⟩] rfl c6Run).1

/-- Claim C7: for every severity level, pattern factors, and sentiment in
[0,1], the final score lies in [0,1] — including when a JVM-pause or
exception-type floor raises the effective base. -/
theorem C7_score_in_unit_interval (level : LogLevel) (f : Factors) (s : ℚ)
    (h0 : 0 ≤ s) (h1 : s ≤ 1) :
    0 ≤ calculateAnomalyScore level s f ∧ calculateAnomalyScore level s f ≤ 1 := by
  have hb0 : 0 ≤ effectiveBase level f :=
    le_trans (severity_nonneg level) (effectiveBase_ge_severity level f)
  have hb1 : effectiveBase level f ≤ 1 := effectiveBase_le_one level f
  unfold calculateAnomalyScore
  constructor
  · nlinarith
  · nlinarith

/-- Claim C7, witness at INFO / empty factors / sentiment 0.5. -/
theorem C7_witness :
    0 ≤ calculateAnomalyScore .INFO (1 / 2) .empty ∧
      calculateAnomalyScore .INFO (1 / 2) .empty ≤ 1 :=
  C7_score_in_unit_interval .INFO .empty (1 / 2) (by norm_num) (by norm_num)

/-- Claim C8: holding sentiment and pattern factors fixed, the final score
is monotonically non-decreasing along the level ordering
UNKNOWN = INFO ≤ WARN ≤ ERROR ≤ FATAL (base table 0.25/0.25/0.5/0.75/1.0). -/
theorem C8_monotone_in_level (l₁ l₂ : LogLevel) (s : ℚ) (f : Factors)
    (h : levelRank l₁ ≤ levelRank l₂) :
    calculateAnomalyScore l₁ s f ≤ calculateAnomalyScore l₂ s f := by
  have hb : SEVERITY_SCORES l₁ ≤ SEVERITY_SCORES l₂ := by
    cases l₁ <;> cases l₂ <;>
      first
        | exact absurd h (by decide)
        | norm_num [SEVERITY_SCORES]
  have heff : effectiveBase l₁ f ≤ effectiveBase l₂ f :=
    excAdjust_mono _ _ f (jvmAdjust_mono _ _ f hb)
  unfold calculateAnomalyScore
  have hmul := mul_le_mul_of_nonneg_right heff (by norm_num : (0 : ℚ) ≤ 7 / 10)
  linarith

/-- Claim C8, witness: INFO vs FATAL at sentiment 0, empty factors. -/
theorem C8_witness :
    calculateAnomalyScore .INFO 0 .empty ≤ calculateAnomalyScore .FATAL 0 .empty :=
  C8_monotone_in_level .INFO .FATAL 0 .empty (by decide)

/-- Claim C9: for EXCEPTION factors, an exception type containing
"NullPointerException" raises the effective base to at least the ERROR base
0.75, and one containing "IOException" to at least the WARN base 0.5, and
the final score is the 0.7/0.3 weighted combination of that adjusted base
with the sentiment. -/
theorem C9_exception_type_floors :
    (∀ (l : LogLevel) (s : ℚ) (st : StackInfo),
        strContains st.exception_type "NullPointerException" = true →
          SEVERITY_SCORES .ERROR ≤ effectiveBase l (.exc st) ∧
          calculateAnomalyScore l s (.exc st)
            = effectiveBase l (.exc st) * (7 / 10) + s * (3 / 10)) ∧
    (∀ (l : LogLevel) (st : StackInfo),
        strContains st.exception_type "IOException" = true →
          SEVERITY_SCORES .WARN ≤ effectiveBase l (.exc st)) := by
  constructor
  · intro l s st h
    refine ⟨?_, rfl⟩
    unfold effectiveBase
    rw [jvmAdjust_exc, excAdjust_exc, if_pos h]
    rw [show SEVERITY_SCORES LogLevel.ERROR = 3 / 4 from rfl]
    exact le_max_right _ _
  · intro l st h
    unfold effectiveBase
    rw [jvmAdjust_exc, excAdjust_exc]
    rw [show SEVERITY_SCORES LogLevel.WARN = 1 / 2 from rfl]
    by_cases hn : strContains st.exception_type "NullPointerException" = true
    · rw [if_pos hn]
      exact le_trans (by norm_num) (le_max_right _ _)
    · rw [if_neg hn, if_pos h]
      exact le_max_right _ _

/-- Claim C9, witness on concrete NPE and IOException stack infos. -/
theorem C9_witness :
    SEVERITY_SCORES .ERROR
        ≤ effectiveBase .INFO (.exc ⟨"java.lang.NullPointerException".toList, []⟩) ∧
      SEVERITY_SCORES .WARN
        ≤ effectiveBase .INFO (.exc ⟨"java.io.IOException".toList, []⟩) :=
  ⟨(C9_exception_type_floors.1 .INFO 0
      ⟨"java.lang.NullPointerException".toList, []⟩ (by decide)).1,
   C9_exception_type_floors.2 .INFO ⟨"java.io.IOException".toList, []⟩ (by decide)⟩

/-- Claim C10: on text containing "JvmPauseMonitor" but no "approximately"
(or with no digit in the segment before the first "ms"), the storage-side
classifier's unguarded duration parse raises (modelled `none`), while the
pipeline-side `_parse_jvm_pause` guards the same parse and returns `None`. -/
theorem C10_storage_unguarded_duration_parse (t : Chars)
    (hjpm : strContains t "JvmPauseMonitor" = true)
    (hfail : strContains t "approximately" = false ∨
             ((esJvmSegment t).filter Char.isDigit).isEmpty = true) :
    determineAnomalyType t = none ∧ parseJvmPause t = none := by
  have hdur : jvmDurationParse t = none := by
    rcases hfail with hna | hdig
    · unfold jvmDurationParse
      rw [pySplit_eq_single_of_not_contains _ _ hna]
      rfl
    · unfold jvmDurationParse
      cases hseg : (pySplit "approximately".toList t)[1]? with
      | none => rfl
      | some seg =>
        have hds :
            (((pySplit "ms".toList seg).headD seg).filter Char.isDigit).isEmpty = true := by
          unfold esJvmSegment at hdig
          rw [hseg] at hdig
          exact hdig
        show (if (((pySplit "ms".toList seg).headD seg).filter Char.isDigit).isEmpty then none
              else some (digitsVal (((pySplit "ms".toList seg).headD seg).filter Char.isDigit)))
            = none
        rw [if_pos hds]
  refine ⟨?_, ?_⟩
  · simp [determineAnomalyType, hjpm, hdur]
  · unfold parseJvmPause
    by_cases hp : (strContains t "JvmPauseMonitor" && strContains t "pause") = true
    · rw [if_pos hp, hdur]
    · rw [if_neg hp]

/-- Claim C10, witness: a JvmPauseMonitor line without "approximately". -/
theorem C10_witness :
    determineAnomalyType c10Line = none ∧ parseJvmPause c10Line = none :=
  C10_storage_unguarded_duration_parse c10Line (by decide) (Or.inl (by decide))

end AnomalyDetection
